import Mathlib

/-!
Shallow embedding of the inspection due-date projector of `src/app.py`
(Streamlit app "Calculadora de Inspeções Aeronáuticas").

Modelling conventions:
* Calendar dates (`datetime.date`) are modelled as integer day numbers
  (proleptic Gregorian rata die); `(d2 - d1).days` becomes integer
  subtraction.  `dataParaDias` converts a civil date `y-m-d` to its day
  number so that concrete calendar scenarios can be evaluated.
* The catalog column "Intervalo em Dias" is `pd.to_numeric(..., errors='coerce')`,
  i.e. a float or NaN; a NaN is modelled as `none`.  The embedding restricts
  the numeric values to integers (`Option Int`): on integer-valued floats
  below 2^53 the Python float operations used by the app (`//` floor
  division, `timedelta(days=...)` addition) are exact, so the integer model
  is faithful on the whole-day intervals the data model intends.
* Python `//` is floor division, modelled by `Int.fdiv`; `int()` applied to
  its (already integral, non-negative) result is the identity.
* The flight-hour inputs are floats used only in an order comparison; they
  are modelled as exact rationals.
* `st.error` terminates the computation without producing results; the whole
  button handler is modelled as a function into `Except String`, returning
  the sorted result table (`df_resultados`) on success.
* In the "Próximas Inspeções" loop (lines 227-235), the column
  "Última realização" holds `datetime.date` objects (`st.date_input` returns
  a `datetime.date` and adding a `timedelta` keeps it one), and a pandas
  column of `datetime.date` objects stays object dtype, so line 229 calls
  `.date()` on a `datetime.date` — a method it does not have.  The body
  therefore raises `AttributeError` on the first row with
  `item["Quantidade"] > 0`, before computing `proxima` or `atraso`, and the
  loop never emits a listing line.  An uncaught exception is modelled as
  `Except.error`.
-/

/-- One catalog row after `sanitizar_dados` and the project filter:
columns "Tipo de inspeção", "Nível", "Intervalo em Dias" (NaN = `none`). -/
structure InspecaoRegistro where
  tipo : String
  nivel : String
  intervaloDias : Option Int
deriving DecidableEq

/-- The scalar inputs of the evaluation: `data_inicio`, `data_fim` (day
numbers), `horas_inicio`, `horas_fim`, `ciclos_inicio`, `ciclos_fim`. -/
structure Janela where
  data_inicio : Int
  data_fim : Int
  horas_inicio : ℚ
  horas_fim : ℚ
  ciclos_inicio : Int
  ciclos_fim : Int
deriving DecidableEq

/-- One row of `df_resultados` (lines 197-203 of `src/app.py`):
keys "Inspeção", "Nível", "Intervalo (dias)", "Quantidade",
"Última realização". -/
structure Resultado where
  inspecao : String
  nivel : String
  intervalo_dias : Int
  quantidade : Int
  ultima_realizacao : Int
deriving DecidableEq

/-- The body of the result loop for one catalog row (lines 194-203):
`intervalo = float(row["Intervalo em Dias"])`; rows are appended only when
`intervalo > 0`, with `qtd_inspecoes = int(total_dias // intervalo)` and
`"Última realização" = data_inicio + timedelta(days=intervalo)`. -/
def projetaRegistro (total_dias data_inicio : Int) (r : InspecaoRegistro) :
    Option Resultado :=
  match r.intervaloDias with
  | some intervalo =>
      if 0 < intervalo then
        some { inspecao := r.tipo
               nivel := r.nivel
               intervalo_dias := intervalo
               quantidade := Int.fdiv total_dias intervalo
               ultima_realizacao := data_inicio + intervalo }
      else none
  | none => none

/-- Insert one result into a list sorted by "Intervalo (dias)". -/
def insereOrdenado (r : Resultado) : List Resultado → List Resultado
  | [] => [r]
  | x :: xs =>
      if r.intervalo_dias ≤ x.intervalo_dias then r :: x :: xs
      else x :: insereOrdenado r xs

/-- `df_resultados.sort_values("Intervalo (dias)")` (line 211): the table is
reordered so that "Intervalo (dias)" is non-decreasing.  The embedding fixes
one concrete such reordering (insertion sort); pandas' default
`kind='quicksort'` guarantees the key order but not the order of ties, so no
theorem below asserts a tie-breaking policy on behalf of the source. -/
def ordenaPorIntervalo : List Resultado → List Resultado
  | [] => []
  | x :: xs => insereOrdenado x (ordenaPorIntervalo xs)

/-- The "🔄 Calcular Inspeções" button handler (lines 162-211 of
`src/app.py`), from the validations to the sorted `df_resultados`:
* `data_fim < data_inicio`, then `horas_fim < horas_inicio`, then
  `ciclos_fim < ciclos_inicio` each abort with `st.error` (modelled as
  `Except.error` carrying the message);
* otherwise `total_dias = (data_fim - data_inicio).days`, the catalog is
  filtered to rows with `"Intervalo em Dias".notna()` (line 186), the loop
  of lines 192-205 builds `resultados`, and line 211 sorts by
  "Intervalo (dias)". -/
def calcularInspecoes (rows : List InspecaoRegistro) (j : Janela) :
    Except String (List Resultado) :=
  if j.data_fim < j.data_inicio then
    Except.error "A data final não pode ser anterior à data inicial!"
  else if j.horas_fim < j.horas_inicio then
    Except.error "As horas finais não podem ser menores que as horas iniciais!"
  else if j.ciclos_fim < j.ciclos_inicio then
    Except.error "Os ciclos finais não podem ser menores que os ciclos iniciais!"
  else
    let total_dias := j.data_fim - j.data_inicio
    let inspecoes_dias := rows.filter (fun r => r.intervaloDias.isSome)
    let resultados := inspecoes_dias.filterMap
      (projetaRegistro total_dias j.data_inicio)
    Except.ok (ordenaPorIntervalo resultados)

/-- The "📅 Próximas Inspeções" loop (lines 227-235): iterate over the
sorted `df_resultados`; rows with `item["Quantidade"] <= 0` are skipped by
the guard on line 228.  For the first row with `item["Quantidade"] > 0` the
body evaluates `item["Última realização"].date()` (line 229), and
`item["Última realização"]` is a `datetime.date` (object-dtype column),
which has no `.date()` method: the loop aborts with an uncaught
`AttributeError` before computing `proxima` or `atraso` and emits no line.
If no row qualifies, the loop completes having emitted nothing
(`Except.ok ()`). -/
def proximasInspecoes : List Resultado → Except String Unit
  | [] => Except.ok ()
  | item :: rest =>
      if 0 < item.quantidade then
        Except.error "AttributeError: datetime.date object has no attribute date"
      else proximasInspecoes rest

/-- Gregorian leap-year rule, for the day-number model of `datetime.date`. -/
def bissexto (y : Nat) : Bool :=
  y % 4 == 0 && (y % 100 != 0 || y % 400 == 0)

/-- Month lengths of year `y`. -/
def duracaoMeses (y : Nat) : List Nat :=
  [31, if bissexto y then 29 else 28, 31, 30, 31, 30, 31, 31, 30, 31, 30, 31]

/-- Ordinal day of `y-m-d` within year `y` (1-based). -/
def diaDoAno (y m d : Nat) : Nat :=
  ((duracaoMeses y).take (m - 1)).sum + d

/-- Days in years `1..y-1` of the proleptic Gregorian calendar. -/
def diasAteAno (y : Nat) : Nat :=
  365 * (y - 1) + (y - 1) / 4 + (y - 1) / 400 - (y - 1) / 100

/-- Day number (rata die) of the civil date `y-m-d`: the model of a
`datetime.date` value, on which `date2 - date1` is integer subtraction and
`date + timedelta(days=n)` is integer addition. -/
def dataParaDias (y m d : Nat) : Int :=
  ((diasAteAno y + diaDoAno y m d : Nat) : Int)

/-- A record qualifies for the result table iff its "Intervalo em Dias" is
present (not NaN) and strictly positive (lines 186 and 195). -/
def avaliavel (r : InspecaoRegistro) : Bool :=
  match r.intervaloDias with
  | some i => decide (0 < i)
  | none => false

/-- The result row built from one qualifying catalog record, written as a
function of the record: used to state that the table holds exactly one row
per record with a present, positive "Intervalo em Dias". -/
def resultadoDe (total_dias data_inicio : Int) (r : InspecaoRegistro) :
    Resultado :=
  { inspecao := r.tipo
    nivel := r.nivel
    intervalo_dias := r.intervaloDias.getD 0
    quantidade := Int.fdiv total_dias (r.intervaloDias.getD 0)
    ultima_realizacao := data_inicio + r.intervaloDias.getD 0 }

/-- Concrete catalog row: interval of 100 days. -/
def regCem : InspecaoRegistro := ⟨"INSP 100FH", "C", some 100⟩

/-- Concrete catalog row: interval of 400 days (zero occurrences in a
365-day window). -/
def regQuatrocentos : InspecaoRegistro := ⟨"INSP 400FH", "I", some 400⟩

/-- Concrete catalog row with NaN interval (dropped by the notna filter). -/
def regSemIntervalo : InspecaoRegistro := ⟨"INSP SEM", "Z", none⟩

/-- Concrete catalog row with interval 0 (dropped by the `> 0` guard). -/
def regZero : InspecaoRegistro := ⟨"INSP ZERO", "W", some 0⟩

/-- Concrete mixed catalog exercising all inclusion/exclusion cases. -/
def catalogoMisto : List InspecaoRegistro :=
  [regQuatrocentos, regCem, regSemIntervalo, regZero]

/-- Concrete valid window: a 365-day span with the UI's default hour/cycle
ranges. -/
def janelaPadrao : Janela := ⟨0, 365, 0, 1000, 0, 100⟩

/-- Concrete invalid window: end date before start date. -/
def janelaInvertida : Janela := ⟨365, 0, 0, 1000, 0, 100⟩

/-- The result row the app produces for `regCem` under `janelaPadrao`. -/
def resultadoCem : Resultado := ⟨"INSP 100FH", "C", 100, 3, 100⟩

/-- The result row the app produces for `regQuatrocentos` under
`janelaPadrao`. -/
def resultadoQuatrocentos : Resultado := ⟨"INSP 400FH", "I", 400, 0, 400⟩

/-- Concrete catalog for the spec's Scenario 1. -/
def catalogoCenario : List InspecaoRegistro := [⟨"INSP 100FH", "C", some 100⟩]

/-- Concrete window for the spec's Scenario 1: 2024-01-01 to 2024-12-31. -/
def janelaCenario : Janela :=
  ⟨dataParaDias 2024 1 1, dataParaDias 2024 12 31, 0, 1000, 0, 100⟩

/-- The result row the app produces in the spec's Scenario 1. -/
def resultadoCenario : Resultado :=
  ⟨"INSP 100FH", "C", 100, 3, dataParaDias 2024 1 1 + 100⟩

/-! ## Helper lemmas -/

theorem insereOrdenado_perm (r : Resultado) (l : List Resultado) :
    List.Perm (insereOrdenado r l) (r :: l) := by
  induction l with
  | nil => exact List.Perm.refl _
  | cons x xs ih =>
    simp only [insereOrdenado]
    split
    · exact List.Perm.refl _
    · exact (ih.cons x).trans (List.Perm.swap r x xs)

theorem ordenaPorIntervalo_perm (l : List Resultado) :
    List.Perm (ordenaPorIntervalo l) l := by
  induction l with
  | nil => exact List.Perm.refl _
  | cons x xs ih =>
    exact (insereOrdenado_perm x (ordenaPorIntervalo xs)).trans (ih.cons x)

theorem calcularInspecoes_eq_ok (rows : List InspecaoRegistro) (j : Janela)
    (rs : List Resultado) :
    calcularInspecoes rows j = Except.ok rs ↔
      ¬ j.data_fim < j.data_inicio ∧ ¬ j.horas_fim < j.horas_inicio ∧
      ¬ j.ciclos_fim < j.ciclos_inicio ∧
      rs = ordenaPorIntervalo
        ((rows.filter (fun r => r.intervaloDias.isSome)).filterMap
          (projetaRegistro (j.data_fim - j.data_inicio) j.data_inicio)) := by
  unfold calcularInspecoes
  split_ifs with h1 h2 h3
  · simp [h1]
  · simp [h1, h2]
  · simp [h1, h2, h3]
  · simp [h1, h2, h3, eq_comm]

theorem filterMap_projeta_eq (t d : Int) (rows : List InspecaoRegistro) :
    (rows.filter (fun r => r.intervaloDias.isSome)).filterMap
        (projetaRegistro t d)
      = (rows.filter avaliavel).map (resultadoDe t d) := by
  induction rows with
  | nil => rfl
  | cons a l ih =>
    rcases ha : a.intervaloDias with _ | i
    · simp [List.filter_cons, avaliavel, ha, ih]
    · by_cases hi : 0 < i
      · simp [List.filter_cons, avaliavel, projetaRegistro, resultadoDe, ha, hi, ih]
      · simp [List.filter_cons, avaliavel, projetaRegistro, ha, hi, ih]

theorem calcularInspecoes_ok_total_nonneg {rows : List InspecaoRegistro}
    {j : Janela} {rs : List Resultado}
    (hok : calcularInspecoes rows j = Except.ok rs) :
    0 ≤ j.data_fim - j.data_inicio := by
  rw [calcularInspecoes_eq_ok] at hok
  have := hok.1
  omega

theorem calcularInspecoes_perm {rows : List InspecaoRegistro} {j : Janela}
    {rs : List Resultado} (hok : calcularInspecoes rows j = Except.ok rs) :
    List.Perm rs
      ((rows.filter avaliavel).map
        (resultadoDe (j.data_fim - j.data_inicio) j.data_inicio)) := by
  rw [calcularInspecoes_eq_ok] at hok
  obtain ⟨-, -, -, rfl⟩ := hok
  rw [filterMap_projeta_eq]
  exact ordenaPorIntervalo_perm _

theorem mem_calcularInspecoes {rows : List InspecaoRegistro} {j : Janela}
    {rs : List Resultado} {r : Resultado}
    (hok : calcularInspecoes rows j = Except.ok rs) (hr : r ∈ rs) :
    0 < r.intervalo_dias ∧
    r.quantidade = Int.fdiv (j.data_fim - j.data_inicio) r.intervalo_dias ∧
    r.ultima_realizacao = j.data_inicio + r.intervalo_dias := by
  have hr' := (calcularInspecoes_perm hok).mem_iff.mp hr
  obtain ⟨row, hrow, rfl⟩ := List.mem_map.mp hr'
  have hq := (List.mem_filter.mp hrow).2
  unfold avaliavel at hq
  rcases ha : row.intervaloDias with _ | i
  · rw [ha] at hq
    simp at hq
  · rw [ha] at hq
    simp only [decide_eq_true_eq] at hq
    simp [resultadoDe, ha, hq]

theorem fdiv_eq_floor_rat (a b : Int) (hb : 0 < b) :
    Int.fdiv a b = ⌊(a : ℚ) / (b : ℚ)⌋ := by
  rw [Int.fdiv_eq_ediv a hb.le]
  obtain ⟨d, rfl⟩ : ∃ d : Nat, b = (d : Int) :=
    ⟨b.toNat, (Int.toNat_of_nonneg hb.le).symm⟩
  exact_mod_cast (Rat.floor_intCast_div_natCast a d).symm

theorem fdiv_eq_zero_iff_lt (a b : Int) (ha : 0 ≤ a) (hb : 0 < b) :
    Int.fdiv a b = 0 ↔ a < b := by
  rw [Int.fdiv_eq_ediv a hb.le]
  constructor
  · intro h
    by_contra hab
    push_neg at hab
    have h1 : (1 : Int) ≤ a / b := by
      rw [Int.le_ediv_iff_mul_le hb]
      omega
    omega
  · intro h
    exact Int.ediv_eq_zero_of_lt ha h

theorem proximasInspecoes_error_of_mem {rs : List Resultado} {r : Resultado}
    (hr : r ∈ rs) (hq : 0 < r.quantidade) :
    proximasInspecoes rs =
      Except.error
        "AttributeError: datetime.date object has no attribute date" := by
  induction rs with
  | nil => cases hr
  | cons a l ih =>
    by_cases ha : 0 < a.quantidade
    · simp [proximasInspecoes, ha]
    · rcases List.mem_cons.mp hr with rfl | hr'
      · exact absurd hq ha
      · simpa [proximasInspecoes, ha] using ih hr'

/-! ## Claims -/

/-- C1: for every record with a positive interval evaluated under a valid
window, the produced "Quantidade" equals the floor of totalDays divided by
the interval in days. -/
theorem C1_quantidade_piso_do_quociente
    (rows : List InspecaoRegistro) (j : Janela) (rs : List Resultado)
    (r : Resultado) (hok : calcularInspecoes rows j = Except.ok rs)
    (hr : r ∈ rs) :
    r.quantidade =
      ⌊((j.data_fim - j.data_inicio : Int) : ℚ) / (r.intervalo_dias : ℚ)⌋ := by
  obtain ⟨hi, hq, -⟩ := mem_calcularInspecoes hok hr
  rw [hq, fdiv_eq_floor_rat _ _ hi]

theorem C1_quantidade_piso_do_quociente_witness :
    calcularInspecoes [regCem] janelaPadrao = Except.ok [resultadoCem] ∧
    resultadoCem ∈ [resultadoCem] ∧
    resultadoCem.quantidade =
      ⌊((janelaPadrao.data_fim - janelaPadrao.data_inicio : Int) : ℚ) /
        (resultadoCem.intervalo_dias : ℚ)⌋ :=
  ⟨rfl, by decide,
    C1_quantidade_piso_do_quociente [regCem] janelaPadrao [resultadoCem]
      resultadoCem rfl (by decide)⟩

/-- C2 counterexample: under the 365-day window, the record with interval
100 gets occurrenceCount 3, yet "Última realização" is startDate + 100 and
not startDate + 100·3 as the scaled-anchor claim requires. -/
theorem C2_ancora_escalada_contraexemplo :
    calcularInspecoes [regCem] janelaPadrao = Except.ok [resultadoCem] ∧
    resultadoCem.quantidade = 3 ∧
    resultadoCem.ultima_realizacao ≠
      janelaPadrao.data_inicio +
        resultadoCem.intervalo_dias * resultadoCem.quantidade :=
  ⟨rfl, rfl, by decide⟩

/-- C2 (amended): for every record with a positive interval evaluated under
a valid window, the produced lastOccurrenceDate equals startDate +
intervalDays — one interval after the window start, independent of
occurrenceCount (it equals startDate + intervalDays·occurrenceCount only
when occurrenceCount = 1). -/
theorem C2_ancora_fixa_amended
    (rows : List InspecaoRegistro) (j : Janela) (rs : List Resultado)
    (r : Resultado) (hok : calcularInspecoes rows j = Except.ok rs)
    (hr : r ∈ rs) :
    r.ultima_realizacao = j.data_inicio + r.intervalo_dias :=
  (mem_calcularInspecoes hok hr).2.2

theorem C2_ancora_fixa_amended_witness :
    calcularInspecoes [regCem] janelaPadrao = Except.ok [resultadoCem] ∧
    resultadoCem ∈ [resultadoCem] ∧
    resultadoCem.ultima_realizacao =
      janelaPadrao.data_inicio + resultadoCem.intervalo_dias :=
  ⟨rfl, by decide,
    C2_ancora_fixa_amended [regCem] janelaPadrao [resultadoCem] resultadoCem
      rfl (by decide)⟩

/-- C3: if the date window is inverted, or the flight-hours range is
inverted, or the cycles range is inverted, the evaluation stops with an
error message and produces no results. -/
theorem C3_janela_invalida_erro (rows : List InspecaoRegistro) (j : Janela)
    (h : j.data_fim < j.data_inicio ∨ j.horas_fim < j.horas_inicio ∨
      j.ciclos_fim < j.ciclos_inicio) :
    ∃ msg, calcularInspecoes rows j = Except.error msg := by
  unfold calcularInspecoes
  split_ifs with h1 h2 h3
  · exact ⟨_, rfl⟩
  · exact ⟨_, rfl⟩
  · exact ⟨_, rfl⟩
  · rcases h with h | h | h
    · exact absurd h h1
    · exact absurd h h2
    · exact absurd h h3

theorem C3_janela_invalida_erro_witness :
    (janelaInvertida.data_fim < janelaInvertida.data_inicio ∨
      janelaInvertida.horas_fim < janelaInvertida.horas_inicio ∨
      janelaInvertida.ciclos_fim < janelaInvertida.ciclos_inicio) ∧
    ∃ msg, calcularInspecoes catalogoMisto janelaInvertida =
      Except.error msg :=
  ⟨Or.inl (by decide),
    C3_janela_invalida_erro catalogoMisto janelaInvertida
      (Or.inl (by decide))⟩

/-- C4: the result table holds exactly one row for each record whose
"Intervalo em Dias" is present and positive, and no row for any other
record: it is a permutation of the per-record results of the qualifying
sub-catalog. -/
theorem C4_uma_linha_por_registro_valido
    (rows : List InspecaoRegistro) (j : Janela) (rs : List Resultado)
    (hok : calcularInspecoes rows j = Except.ok rs) :
    List.Perm rs
      ((rows.filter avaliavel).map
        (resultadoDe (j.data_fim - j.data_inicio) j.data_inicio)) :=
  calcularInspecoes_perm hok

theorem C4_uma_linha_por_registro_valido_witness :
    calcularInspecoes catalogoMisto janelaPadrao =
      Except.ok [resultadoCem, resultadoQuatrocentos] ∧
    List.Perm [resultadoCem, resultadoQuatrocentos]
      ((catalogoMisto.filter avaliavel).map
        (resultadoDe (janelaPadrao.data_fim - janelaPadrao.data_inicio)
          janelaPadrao.data_inicio)) :=
  ⟨rfl,
    C4_uma_linha_por_registro_valido catalogoMisto janelaPadrao
      [resultadoCem, resultadoQuatrocentos] rfl⟩

/-- C5: the code never performs the overdue classification the claim
describes: on a table with an overdue candidate (row with positive
"Quantidade"), the listing loop raises AttributeError at line 229 before
any comparison with "today" is made. -/
theorem C5_classificacao_nunca_executada :
    calcularInspecoes [regCem] janelaPadrao = Except.ok [resultadoCem] ∧
    0 < resultadoCem.quantidade ∧
    proximasInspecoes [resultadoCem] =
      Except.error
        "AttributeError: datetime.date object has no attribute date" :=
  ⟨rfl, by decide, rfl⟩

/-- C7: the first half of the claim holds of the table — a record whose
positive interval exceeds the window span still yields a row with
"Quantidade" 0 — but the listing half does not: with a "Quantidade" > 0 row
present, the listing loop aborts with AttributeError at line 229 and emits
no listing at all, instead of listing exactly those rows. -/
theorem C7_listagem_aborta :
    calcularInspecoes catalogoMisto janelaPadrao =
      Except.ok [resultadoCem, resultadoQuatrocentos] ∧
    resultadoQuatrocentos.quantidade = 0 ∧
    0 < resultadoCem.quantidade ∧
    proximasInspecoes [resultadoCem, resultadoQuatrocentos] =
      Except.error
        "AttributeError: datetime.date object has no attribute date" :=
  ⟨rfl, rfl, by decide, rfl⟩

/-- C8: the code never computes a next due date: whenever the table has any
row with positive "Quantidade" (the only rows for which line 229 would
compute `proxima`), the listing loop raises AttributeError evaluating
`item["Última realização"].date()` before the addition, so the claimed
`nextDueDate = lastOccurrenceDate + intervalDays` value is never produced. -/
theorem C8_proxima_nunca_calculada (rs : List Resultado)
    (h : ∃ r ∈ rs, 0 < r.quantidade) :
    proximasInspecoes rs =
      Except.error
        "AttributeError: datetime.date object has no attribute date" := by
  obtain ⟨r, hr, hq⟩ := h
  exact proximasInspecoes_error_of_mem hr hq

theorem C8_proxima_nunca_calculada_witness :
    (∃ r ∈ [resultadoCem], 0 < r.quantidade) ∧
    proximasInspecoes [resultadoCem] =
      Except.error
        "AttributeError: datetime.date object has no attribute date" :=
  ⟨⟨resultadoCem, by decide, by decide⟩,
    C8_proxima_nunca_calculada [resultadoCem]
      ⟨resultadoCem, by decide, by decide⟩⟩

/-- C9: Scenario 1 of the spec: window 2024-01-01 .. 2024-12-31 (365 days)
and a record with interval 100 do produce the table row with
occurrenceCount 3 and "Última realização" 2024-04-10, but the claimed
nextDueDate of 2024-07-19 is never produced: the listing loop aborts with
AttributeError at line 229 on this row (occurrenceCount 3 > 0) before
computing any due date. -/
theorem C9_cenario_um_aborta :
    janelaCenario.data_fim - janelaCenario.data_inicio = 365 ∧
    calcularInspecoes catalogoCenario janelaCenario =
      Except.ok [resultadoCenario] ∧
    resultadoCenario.quantidade = 3 ∧
    resultadoCenario.ultima_realizacao = dataParaDias 2024 4 10 ∧
    proximasInspecoes [resultadoCenario] =
      Except.error
        "AttributeError: datetime.date object has no attribute date" :=
  ⟨by decide, rfl, rfl, by decide, rfl⟩

/-- C10: for every record with a positive interval evaluated under a valid
window, "Última realização" is exactly startDate + intervalDays, hence
strictly later than the window start, and when "Quantidade" is 0 it is
strictly later than the window end. -/
theorem C10_ancora_independente_da_quantidade
    (rows : List InspecaoRegistro) (j : Janela) (rs : List Resultado)
    (r : Resultado) (hok : calcularInspecoes rows j = Except.ok rs)
    (hr : r ∈ rs) :
    r.ultima_realizacao = j.data_inicio + r.intervalo_dias ∧
    j.data_inicio < r.ultima_realizacao ∧
    (r.quantidade = 0 → j.data_fim < r.ultima_realizacao) := by
  obtain ⟨hi, hq, hu⟩ := mem_calcularInspecoes hok hr
  have ht := calcularInspecoes_ok_total_nonneg hok
  refine ⟨hu, by omega, fun h0 => ?_⟩
  rw [hq] at h0
  have := (fdiv_eq_zero_iff_lt _ _ ht hi).mp h0
  omega

theorem C10_ancora_independente_da_quantidade_witness :
    calcularInspecoes [regQuatrocentos] janelaPadrao =
      Except.ok [resultadoQuatrocentos] ∧
    resultadoQuatrocentos ∈ [resultadoQuatrocentos] ∧
    (resultadoQuatrocentos.ultima_realizacao =
        janelaPadrao.data_inicio + resultadoQuatrocentos.intervalo_dias ∧
      janelaPadrao.data_inicio < resultadoQuatrocentos.ultima_realizacao ∧
      (resultadoQuatrocentos.quantidade = 0 →
        janelaPadrao.data_fim < resultadoQuatrocentos.ultima_realizacao)) :=
  ⟨rfl, by decide,
    C10_ancora_independente_da_quantidade [regQuatrocentos] janelaPadrao
      [resultadoQuatrocentos] resultadoQuatrocentos rfl (by decide)⟩
